import Mathlib

/-!
Verification of the oldtree inventory frontend and the stock-movement
ledger logic documented with it.

The ledger model below embeds the `StockMovement.save` method quoted in
the architecture document (src/unnamed/part_001, lines 217-234): inside a
database transaction it looks up or lazily creates the `StockLevel` row
for the movement key with default quantity 0, adds `quantity_change` to
it, writes the row back, and then inserts the movement record itself.

The UI model further below embeds `handleFormSubmit` and
`fetchAndPopulateTable` from src/script.js.
-/

/-- One stock movement record: variant id, location id, signed quantity
delta and a free-text note (`StockMovement` model, part_001). -/
structure Movement where
  variantId : Nat
  locationId : Nat
  quantityChange : Int
  note : String
deriving DecidableEq, Repr

/-- Database state touched by `StockMovement.save`: the append-only list
of movement rows and the `StockLevel` table as an association list from
(variant id, location id) to quantity. -/
structure LedgerState where
  movements : List Movement
  balances : List ((Nat × Nat) × Int)
deriving DecidableEq, Repr

/-- Lookup of a `StockLevel` row by its (variant, location) key. -/
def lookupBalance (bs : List ((Nat × Nat) × Int)) (k : Nat × Nat) : Option Int :=
  match bs with
  | [] => none
  | (k2, q) :: rest => if k2 = k then some q else lookupBalance rest k

/-- Write a `StockLevel` row back: replace the row for the key when it
exists, otherwise create it (the create half of `get_or_create`). -/
def setBalance (bs : List ((Nat × Nat) × Int)) (k : Nat × Nat) (q : Int) :
    List ((Nat × Nat) × Int) :=
  match bs with
  | [] => [(k, q)]
  | (k2, q2) :: rest => if k2 = k then (k, q) :: rest else (k2, q2) :: setBalance rest k q

/-- The (variant id, location id) key of a movement. -/
def movementKey (m : Movement) : Nat × Nat := (m.variantId, m.locationId)

/-- `StockMovement.save` (part_001, lines 217-234): within
`transaction.atomic`, `get_or_create` the `StockLevel` row for the key
with default quantity 0, add `quantity_change`, save the row, then insert
the movement row itself. -/
def save (st : LedgerState) (m : Movement) : LedgerState :=
  let q := (lookupBalance st.balances (movementKey m)).getD 0
  { movements := st.movements ++ [m]
    balances := setBalance st.balances (movementKey m) (q + m.quantityChange) }

/-- Sum of the accepted quantity deltas for one key over a movement list. -/
def ledgerSum (ms : List Movement) (k : Nat × Nat) : Int :=
  ((ms.filter (fun m => movementKey m = k)).map (fun m => m.quantityChange)).sum

/-- The stored balance for a key, reading a lazily not-yet-created row as
its 0 baseline. -/
def balanceOf (st : LedgerState) (k : Nat × Nat) : Int :=
  (lookupBalance st.balances k).getD 0

/-- Apply a whole sequence of movements through `save`. -/
def applyAll (st : LedgerState) (ms : List Movement) : LedgerState :=
  ms.foldl save st

/-- The empty database: no movements, no balance rows. -/
def initState : LedgerState := { movements := [], balances := [] }

/-- The sum invariant relating the balance table to the movement log. -/
def SumInv (st : LedgerState) : Prop :=
  ∀ k, balanceOf st k = ledgerSum st.movements k

theorem lookupBalance_setBalance_self (bs : List ((Nat × Nat) × Int)) (k : Nat × Nat)
    (q : Int) : lookupBalance (setBalance bs k q) k = some q := by
  induction bs with
  | nil => simp [setBalance, lookupBalance]
  | cons hd tl ih =>
    obtain ⟨k2, q2⟩ := hd
    by_cases hk : k2 = k
    · simp [setBalance, lookupBalance, hk]
    · simp [setBalance, lookupBalance, hk, ih]

theorem lookupBalance_setBalance_ne (bs : List ((Nat × Nat) × Int)) (k k2 : Nat × Nat)
    (q : Int) (hne : k2 ≠ k) :
    lookupBalance (setBalance bs k q) k2 = lookupBalance bs k2 := by
  induction bs with
  | nil => simp [setBalance, lookupBalance, Ne.symm hne]
  | cons hd tl ih =>
    obtain ⟨k3, q3⟩ := hd
    by_cases hk : k3 = k
    · subst hk
      simp [setBalance, lookupBalance, hne, Ne.symm hne]
    · by_cases hk2 : k3 = k2
      · subst hk2
        simp [setBalance, lookupBalance, hk, Ne.symm hne]
      · simp [setBalance, lookupBalance, hk, hk2, ih]

theorem ledgerSum_append (ms : List Movement) (m : Movement) (k : Nat × Nat) :
    ledgerSum (ms ++ [m]) k =
      ledgerSum ms k + (if movementKey m = k then m.quantityChange else 0) := by
  by_cases h : movementKey m = k
  · simp [ledgerSum, List.filter_append, h]
  · simp [ledgerSum, List.filter_append, h]

theorem sumInv_save (st : LedgerState) (m : Movement) (h : SumInv st) :
    SumInv (save st m) := by
  intro k
  by_cases hk : movementKey m = k
  · subst hk
    have h1 : balanceOf (save st m) (movementKey m) =
        balanceOf st (movementKey m) + m.quantityChange := by
      simp [balanceOf, save, lookupBalance_setBalance_self]
    rw [h1, h (movementKey m)]
    simp [save, ledgerSum_append]
  · have h1 : balanceOf (save st m) k = balanceOf st k := by
      simp [balanceOf, save, lookupBalance_setBalance_ne _ _ _ _ (Ne.symm hk)]
    rw [h1, h k]
    simp [save, ledgerSum_append, hk]

theorem sumInv_applyAll (st : LedgerState) (ms : List Movement) (h : SumInv st) :
    SumInv (applyAll st ms) := by
  induction ms generalizing st with
  | nil => simpa [applyAll] using h
  | cons m rest ih =>
    have : applyAll st (m :: rest) = applyAll (save st m) rest := by
      simp [applyAll]
    rw [this]
    exact ih (save st m) (sumInv_save st m h)

/-- C1: starting from the empty database, after any sequence of
successful `save` calls, every stored balance equals the sum of the
accepted quantity deltas of the recorded movements for that key, from
the lazily-created 0 baseline. -/
theorem balance_eq_ledger_sum (ms : List Movement) (k : Nat × Nat) :
    balanceOf (applyAll initState ms) k =
      ledgerSum (applyAll initState ms).movements k := by
  have h0 : SumInv initState := by
    intro k2
    simp [balanceOf, initState, ledgerSum, lookupBalance]
  exact sumInv_applyAll initState ms h0 k

/-- Points at which the storage layer can fail inside the body of
`StockMovement.save`. -/
inductive FailPoint where
  | noFail
  | duringBalanceWrite
  | duringMovementInsert
deriving DecidableEq, Repr

/-- The body of `StockMovement.save` with a storage-failure oracle: the
balance row is located-or-created and written first, then the movement
row is inserted; either write can raise. -/
def saveSteps (st : LedgerState) (m : Movement) (fp : FailPoint) : Option LedgerState :=
  let q := (lookupBalance st.balances (movementKey m)).getD 0
  let st1 : LedgerState :=
    { st with balances := setBalance st.balances (movementKey m) (q + m.quantityChange) }
  if fp = FailPoint.duringBalanceWrite then none
  else
    let st2 : LedgerState := { st1 with movements := st1.movements ++ [m] }
    if fp = FailPoint.duringMovementInsert then none else some st2

/-- `StockMovement.save` as observed outside the transaction: the whole
body of part_001 lines 217-234 runs under `with transaction.atomic()`,
whose semantics roll every write in the block back when any step raises.
Returns the observable database state and a success flag. -/
def saveAtomic (st : LedgerState) (m : Movement) (fp : FailPoint) :
    LedgerState × Bool :=
  match saveSteps st m fp with
  | some st2 => (st2, true)
  | none => (st, false)

/-- C2: `StockMovement.save` is atomic: a run either succeeds with both
effects applied (the full `save` result, movement appended and balance
updated) or fails with the database state exactly as before, whichever
write raised. -/
theorem saveAtomic_all_or_nothing (st : LedgerState) (m : Movement) (fp : FailPoint) :
    (fp = FailPoint.noFail ∧ saveAtomic st m fp = (save st m, true)) ∨
      (fp ≠ FailPoint.noFail ∧ saveAtomic st m fp = (st, false)) := by
  cases fp with
  | noFail =>
    left
    exact ⟨rfl, by simp [saveAtomic, saveSteps, save]⟩
  | duringBalanceWrite =>
    right
    exact ⟨by simp, by simp [saveAtomic, saveSteps]⟩
  | duringMovementInsert =>
    right
    exact ⟨by simp, by simp [saveAtomic, saveSteps]⟩

/-- One step of one of two concurrent `StockMovement.save` transactions
on the same key: the read performed by `get_or_create` (a plain SELECT,
no row lock, which at read-committed isolation sees the last committed
quantity) or the write-and-commit of `quantity += delta` plus the
movement insert. -/
inductive TxStep where
  | readOne
  | writeOne
  | readTwo
  | writeTwo
deriving DecidableEq, Repr

/-- Shared database state for the two-transaction interleaving: the
committed quantity of the contended balance row, each caller's snapshot
from its `get_or_create` read, and the committed movement deltas. -/
structure TwoTxState where
  committed : Int
  readFirst : Option Int
  readSecond : Option Int
  movementLog : List Int
deriving DecidableEq, Repr

/-- Execute one scheduler step. A write uses the quantity its own earlier
read observed, exactly as `stock_level.quantity += self.quantity_change`
does with the instance fetched by `get_or_create`; a write before the
transaction has read is a no-op. -/
def txStep (d1 d2 : Int) (s : TwoTxState) : TxStep → TwoTxState
  | TxStep.readOne => { s with readFirst := some s.committed }
  | TxStep.writeOne =>
    match s.readFirst with
    | some q => { s with committed := q + d1, movementLog := s.movementLog ++ [d1] }
    | none => s
  | TxStep.readTwo => { s with readSecond := some s.committed }
  | TxStep.writeTwo =>
    match s.readSecond with
    | some q => { s with committed := q + d2, movementLog := s.movementLog ++ [d2] }
    | none => s

/-- Run an interleaving of the two transactions from a committed starting
balance. -/
def runSchedule (d1 d2 b0 : Int) (sched : List TxStep) : TwoTxState :=
  sched.foldl (txStep d1 d2)
    { committed := b0
      readFirst := none
      readSecond := none
      movementLog := [] }

/-- C3: counterexample. With starting balance 0 and concurrent deltas
+10 and -3, the interleaving read1, read2, write1, write2 commits both
movements yet leaves the balance at -3, not 0 + 10 + (-3) = 7: the +10
delta is lost because `save` re-reads and rewrites the quantity with no
row lock. -/
theorem lost_update_interleaving :
    (runSchedule 10 (-3) 0
        [TxStep.readOne, TxStep.readTwo, TxStep.writeOne, TxStep.writeTwo]).committed
        = -3 ∧
      (runSchedule 10 (-3) 0
        [TxStep.readOne, TxStep.readTwo, TxStep.writeOne, TxStep.writeTwo]).movementLog
        = [10, -3] ∧
      (-3 : Int) ≠ 0 + (10 + (-3)) := by
  refine ⟨by decide, by decide, by decide⟩

/-- Error raised when a POST /stock-movements payload is rejected. -/
inductive ApplyError where
  | validationError
deriving DecidableEq, Repr

/-- Modelled from the spec: the validation step of POST /stock-movements
(the `StockMovementSerializer` is referenced but not defined in the
repository). Spec section 4.1: `quantityChange` must be a nonzero integer
and the variant and location ids must reference existing entities; a
payload whose quantity field is not an integer at all is carried here as
`none`. On any violation the request fails with a validation error and
no write happens; on success the write is `StockMovement.save`. -/
def applyMovement (variants locations : List Nat) (st : LedgerState)
    (variantId locationId : Nat) (qc : Option Int) (note : String) :
    Except ApplyError LedgerState :=
  match qc with
  | none => Except.error ApplyError.validationError
  | some q =>
    if q = 0 then Except.error ApplyError.validationError
    else if variantId ∈ variants then
      if locationId ∈ locations then
        Except.ok (save st { variantId := variantId, locationId := locationId,
                             quantityChange := q, note := note })
      else Except.error ApplyError.validationError
    else Except.error ApplyError.validationError

/-- The database state observable after an applyMovement call: the new
state on success, the unchanged input state on error. -/
def stateAfter (st : LedgerState) (r : Except ApplyError LedgerState) : LedgerState :=
  match r with
  | Except.ok st2 => st2
  | Except.error _ => st

/-- C4: a movement whose quantity delta is zero or not an integer, or
whose variant or location id does not exist, fails with a validation
error and leaves the database unchanged: no movement row is appended and
no balance row is created or updated. -/
theorem applyMovement_invalid_rejected (variants locations : List Nat)
    (st : LedgerState) (variantId locationId : Nat) (qc : Option Int) (note : String)
    (h : qc = some 0 ∨ qc = none ∨ variantId ∉ variants ∨ locationId ∉ locations) :
    applyMovement variants locations st variantId locationId qc note =
        Except.error ApplyError.validationError ∧
      stateAfter st (applyMovement variants locations st variantId locationId qc note)
        = st := by
  have hmain : applyMovement variants locations st variantId locationId qc note =
      Except.error ApplyError.validationError := by
    rcases h with h0 | hnone | hv | hl
    · subst h0
      simp [applyMovement]
    · subst hnone
      simp [applyMovement]
    · cases qc with
      | none => simp [applyMovement]
      | some q =>
        by_cases hq : q = 0
        · simp [applyMovement, hq]
        · simp [applyMovement, hq, hv]
    · cases qc with
      | none => simp [applyMovement]
      | some q =>
        by_cases hq : q = 0
        · simp [applyMovement, hq]
        · by_cases hv2 : variantId ∈ variants
          · simp [applyMovement, hq, hv2, hl]
          · simp [applyMovement, hq, hv2]
  exact ⟨hmain, by rw [hmain]; rfl⟩

/-- Witness for C4 at a concrete input: one known variant and location,
a zero quantity delta, starting from the empty database. -/
theorem applyMovement_invalid_rejected_witness :
    applyMovement [1] [2] initState 1 2 (some 0) "" =
        Except.error ApplyError.validationError ∧
      stateAfter initState (applyMovement [1] [2] initState 1 2 (some 0) "")
        = initState :=
  applyMovement_invalid_rejected [1] [2] initState 1 2 (some 0) "" (Or.inl rfl)

/-- The contents of the movement form: the four named inputs, each a raw
string as returned by FormData.get. -/
structure FormContents where
  product_variant : String
  location : String
  quantity_change : String
  notes : String
deriving DecidableEq, Repr

/-- UI effects performed by handleFormSubmit (src/script.js, lines
97-149), in program order. The success alert carries its timer in
milliseconds and whether a confirm button is shown. -/
inductive UIEvent where
  | disableSubmit
  | showSubmittingLabel
  | postMovement
  | resetForm
  | refetchTable
  | successAlert (timerMs : Nat) (confirmButtonShown : Bool)
  | errorAlert
  | enableSubmit
  | showIdleLabel
deriving DecidableEq, Repr

/-- How the POST /stock-movements request ends: accepted by the server,
rejected with a non-ok status, or failed with a thrown network error. -/
inductive SubmitOutcome where
  | accepted
  | rejectedByServer
  | requestFailed
deriving DecidableEq, Repr

/-- The exact event sequence handleFormSubmit performs for each outcome
(src/script.js lines 97-149): the button is disabled and relabelled, the
POST is sent; on success the form is reset, the table re-fetched and a
1500 ms auto-closing success alert without confirm button shown; on a
non-ok response or a thrown error the catch block shows an error alert
and nothing else; the finally block re-enables the button and restores
its idle label on every path. fetchAndPopulateTable catches its own
errors, so the refetch never throws into this handler. -/
def handleFormSubmitEvents : SubmitOutcome → List UIEvent
  | SubmitOutcome.accepted =>
    [UIEvent.disableSubmit, UIEvent.showSubmittingLabel, UIEvent.postMovement,
     UIEvent.resetForm, UIEvent.refetchTable, UIEvent.successAlert 1500 false,
     UIEvent.enableSubmit, UIEvent.showIdleLabel]
  | SubmitOutcome.rejectedByServer =>
    [UIEvent.disableSubmit, UIEvent.showSubmittingLabel, UIEvent.postMovement,
     UIEvent.errorAlert, UIEvent.enableSubmit, UIEvent.showIdleLabel]
  | SubmitOutcome.requestFailed =>
    [UIEvent.disableSubmit, UIEvent.showSubmittingLabel, UIEvent.postMovement,
     UIEvent.errorAlert, UIEvent.enableSubmit, UIEvent.showIdleLabel]

/-- Observable page state affected by the submission handler. -/
structure UIState where
  form : FormContents
  submitDisabled : Bool
  submitLabelIdle : Bool
  tableRefreshed : Bool
deriving DecidableEq, Repr

/-- A reset form: every input cleared. -/
def emptyForm : FormContents :=
  { product_variant := "", location := "", quantity_change := "", notes := "" }

/-- Effect of one UI event on the page state. -/
def uiStep (s : UIState) : UIEvent → UIState
  | UIEvent.disableSubmit => { s with submitDisabled := true }
  | UIEvent.showSubmittingLabel => { s with submitLabelIdle := false }
  | UIEvent.postMovement => s
  | UIEvent.resetForm => { s with form := emptyForm }
  | UIEvent.refetchTable => { s with tableRefreshed := true }
  | UIEvent.successAlert _ _ => s
  | UIEvent.errorAlert => s
  | UIEvent.enableSubmit => { s with submitDisabled := false }
  | UIEvent.showIdleLabel => { s with submitLabelIdle := true }

/-- Run a list of UI events from a starting page state. -/
def runUI (s : UIState) (evs : List UIEvent) : UIState :=
  evs.foldl uiStep s

/-- C5: when the POST fails, with a non-ok response or a thrown error,
the form contents are unchanged and no reset event ever occurs in the
run: the form is never reset before the write is confirmed successful. -/
theorem form_not_reset_on_failure (s : UIState) (o : SubmitOutcome)
    (h : o ≠ SubmitOutcome.accepted) :
    (runUI s (handleFormSubmitEvents o)).form = s.form ∧
      UIEvent.resetForm ∉ handleFormSubmitEvents o := by
  cases o with
  | accepted => exact absurd rfl h
  | rejectedByServer =>
    constructor
    · simp [runUI, handleFormSubmitEvents, uiStep]
    · simp [handleFormSubmitEvents]
  | requestFailed =>
    constructor
    · simp [runUI, handleFormSubmitEvents, uiStep]
    · simp [handleFormSubmitEvents]

/-- Witness for C5: a concrete filled form and a server rejection leave
the form untouched. -/
theorem form_not_reset_on_failure_witness :
    (runUI { form := { product_variant := "1", location := "2",
                       quantity_change := "5", notes := "restock" }
             submitDisabled := false, submitLabelIdle := true, tableRefreshed := false }
        (handleFormSubmitEvents SubmitOutcome.rejectedByServer)).form =
      { product_variant := "1", location := "2",
        quantity_change := "5", notes := "restock" } ∧
    UIEvent.resetForm ∉ handleFormSubmitEvents SubmitOutcome.rejectedByServer :=
  form_not_reset_on_failure
    { form := { product_variant := "1", location := "2",
                quantity_change := "5", notes := "restock" }
      submitDisabled := false, submitLabelIdle := true, tableRefreshed := false }
    SubmitOutcome.rejectedByServer (by decide)

/-- C6: on every successful submission the handler resets the form,
re-fetches the stock table and shows the transient success alert (1500 ms
timer, no confirm button), as a subsequence in exactly that order. -/
theorem success_resets_refetches_acknowledges :
    List.Sublist
      [UIEvent.resetForm, UIEvent.refetchTable, UIEvent.successAlert 1500 false]
      (handleFormSubmitEvents SubmitOutcome.accepted) := by
  decide

/-- C9: on every outcome the handler first disables the submit button and
swaps in the submitting label before the POST is sent, and after the run
the button is enabled again with its idle label restored, so the button
is disabled for the whole pending request and never left disabled. -/
theorem submit_button_restored (s : UIState) (o : SubmitOutcome) :
    (runUI s (handleFormSubmitEvents o)).submitDisabled = false ∧
      (runUI s (handleFormSubmitEvents o)).submitLabelIdle = true ∧
      (∃ rest, handleFormSubmitEvents o =
        UIEvent.disableSubmit :: UIEvent.showSubmittingLabel ::
          UIEvent.postMovement :: rest) ∧
      (runUI s [UIEvent.disableSubmit, UIEvent.showSubmittingLabel]).submitDisabled
        = true := by
  cases o with
  | accepted =>
    refine ⟨?_, ?_, ⟨_, rfl⟩, ?_⟩ <;> simp [runUI, handleFormSubmitEvents, uiStep]
  | rejectedByServer =>
    refine ⟨?_, ?_, ⟨_, rfl⟩, ?_⟩ <;> simp [runUI, handleFormSubmitEvents, uiStep]
  | requestFailed =>
    refine ⟨?_, ?_, ⟨_, rfl⟩, ?_⟩ <;> simp [runUI, handleFormSubmitEvents, uiStep]

/-- Variant display data as returned inside each stock-level row. -/
structure VariantInfo where
  product : String
  size : String
  color : String
deriving DecidableEq, Repr

/-- Location display data as returned inside each stock-level row. -/
structure LocationInfo where
  name : String
deriving DecidableEq, Repr

/-- One element of the GET /stock-levels response as consumed by the
client: nested variant and location display data plus the quantity. -/
structure StockLevelItem where
  product_variant : VariantInfo
  location : LocationInfo
  quantity : Int
deriving DecidableEq, Repr

/-- The comparator passed to stockLevels.sort in src/script.js line 43:
compare rows by the product display name of the variant. -/
def byProductName (a b : StockLevelItem) : Prop :=
  a.product_variant.product ≤ b.product_variant.product

instance : DecidableRel byProductName :=
  fun a b => inferInstanceAs (Decidable (a.product_variant.product ≤ b.product_variant.product))

/-- Rendered table area after a successful GET /stock-levels: the row
list actually inserted into the table body, whether the explicit empty
state element is visible, and whether the loading spinner is visible. -/
structure RenderedTable where
  rows : List StockLevelItem
  emptyVisible : Bool
  loadingVisible : Bool
deriving DecidableEq, Repr

/-- fetchAndPopulateTable on an ok response (src/script.js lines 30-67):
the table body is cleared; an empty payload shows the explicit empty
state element and inserts no rows; a non-empty payload is sorted by
product name and rendered row by row; the finally block hides the
loading spinner. -/
def renderStockTable (levels : List StockLevelItem) : RenderedTable :=
  if levels.length = 0 then
    { rows := [], emptyVisible := true, loadingVisible := false }
  else
    { rows := List.insertionSort byProductName levels
      emptyVisible := false
      loadingVisible := false }

/-- C7: for every response payload, the rows the client displays are in
nondecreasing order of the variant product display name. -/
theorem displayed_rows_sorted (levels : List StockLevelItem) :
    List.Sorted byProductName (renderStockTable levels).rows := by
  by_cases h : levels.length = 0
  · simp [renderStockTable, h]
  · haveI : IsTotal StockLevelItem byProductName :=
      ⟨fun a b => le_total a.product_variant.product b.product_variant.product⟩
    haveI : IsTrans StockLevelItem byProductName :=
      ⟨fun a b c hab hbc => le_trans hab hbc⟩
    simpa [renderStockTable, h] using List.sorted_insertionSort byProductName levels

/-- C8: the explicit empty state is shown exactly when the balance
listing is empty, and rows are rendered exactly when it is not: an empty
listing gives the no-data state rather than an empty table. -/
theorem empty_state_iff_no_rows (levels : List StockLevelItem) :
    ((renderStockTable levels).emptyVisible = true ↔ levels = []) ∧
      ((renderStockTable levels).rows = [] ↔ levels = []) := by
  cases levels with
  | nil => simp [renderStockTable]
  | cons a rest =>
    have hif : renderStockTable (a :: rest) =
        { rows := List.insertionSort byProductName (a :: rest)
          emptyVisible := false
          loadingVisible := false } := by
      simp [renderStockTable]
    rw [hif]
    have hperm : (List.insertionSort byProductName (a :: rest)).length
        = (a :: rest).length := (List.perm_insertionSort byProductName (a :: rest)).length_eq
    refine ⟨by simp, ?_, ?_⟩
    · intro hrows
      have hrows2 : List.insertionSort byProductName (a :: rest) = [] := hrows
      rw [hrows2] at hperm
      simp at hperm
    · intro hcontr
      exact absurd hcontr (List.cons_ne_nil a rest)

/-- One JSON value as produced by JSON.stringify for the request body:
the model distinguishes string values from numeric ones. -/
inductive JsonValue where
  | str (s : String)
  | num (n : Int)
deriving DecidableEq, Repr

/-- The POST /stock-movements body built by handleFormSubmit
(src/script.js lines 107-120): an object literal whose four fields come
verbatim from FormData.get, which returns the raw input strings, with no
parsing or coercion of quantity_change. -/
def buildRequestBody (f : FormContents) : List (String × JsonValue) :=
  [("product_variant", JsonValue.str f.product_variant),
   ("location", JsonValue.str f.location),
   ("quantity_change", JsonValue.str f.quantity_change),
   ("notes", JsonValue.str f.notes)]

/-- C10: the request body has exactly the four fields product_variant,
location, quantity_change and notes, in that order, and every value is
the raw form string: in particular quantity_change is sent as a string,
unparsed and unvalidated. -/
theorem request_body_verbatim (f : FormContents) :
    (buildRequestBody f).map Prod.fst =
        ["product_variant", "location", "quantity_change", "notes"] ∧
      (buildRequestBody f).map Prod.snd =
        [JsonValue.str f.product_variant, JsonValue.str f.location,
         JsonValue.str f.quantity_change, JsonValue.str f.notes] ∧
      (buildRequestBody f).length = 4 := by
  exact ⟨rfl, rfl, rfl⟩
